import Mathlib

/-!
Verification of the ComfyUI-Copilot backend core: the conversation-memory
compression subsystem (`backend/service/message_memory.py`,
`backend/dao/session_message_table.py`, `backend/service/summary_agent.py`),
the multi-source model gateway (`backend/utils/model_gateway.py`,
`backend/utils/model_source_base.py`) and the download-progress callback
(`backend/controller/model_api.py`), shallowly embedded in Lean 4.

External effects are made explicit: the SQLite-backed session store becomes a
functional key-value map, the LLM summarizer and the per-source catalog
adapters become oracle functions returning `Except` (an `.error` models a
raised Python exception), and fault-injection flags model database operations
raising.  Wall-clock readings become explicit rational parameters.
-/

/-! ## Message memory subsystem (`message_memory.py`, `session_message_table.py`) -/

/-- A message's `content` value: either a plain string or some other JSON
payload (`summary_agent.py` filters on `isinstance(msg.get('content'), str)`,
so the distinction is kept). -/
inductive MsgContent
  | str : String → MsgContent
  | other : MsgContent
  deriving DecidableEq, Repr

/-- One chat message dict `{"role": ..., "content": ...}`. -/
structure Msg where
  role : String
  content : MsgContent
  deriving DecidableEq, Repr

/-- One row of the `session_message` table, as exposed by
`SessionMessage.to_dict` (the `id`/`created_at` bookkeeping columns are not
read by any code under verification). -/
structure SessionRecord where
  messages : List Msg
  index : Nat
  summary : Option String
  attributes : Option String
  deriving DecidableEq, Repr

/-- The durable store keyed by `session_id` (one row per session id). -/
abbrev Store := String → Option SessionRecord

/-- `SessionMessageManager.get_session_message`. -/
def getSessionMessage (st : Store) (sessionId : String) : Option SessionRecord :=
  st sessionId

/-- `SessionMessageManager.save_session_message`: upsert. On an existing row
the `attributes` column is rewritten only when a truthy value is passed
(`if attributes:`). -/
def saveSessionMessage (st : Store) (sessionId : String) (messages : List Msg)
    (index : Nat) (summary : Option String) (attributes : Option String) : Store :=
  fun k =>
    if k = sessionId then
      match st sessionId with
      | some r =>
          some { messages := messages, index := index, summary := summary,
                 attributes := match attributes with
                   | some a => some a
                   | none => r.attributes }
      | none =>
          some { messages := messages, index := index, summary := summary,
                 attributes := attributes }
    else st k

/-- `SessionMessageManager.update_summary`: sets `summary` and `index` of an
existing row, returns `false` (store unchanged) when the row is absent. -/
def updateSummary (st : Store) (sessionId : String) (summary : String)
    (index : Nat) : Bool × Store :=
  match st sessionId with
  | some r =>
      (true, fun k =>
        if k = sessionId then some { r with summary := some summary, index := index }
        else st k)
  | none => (false, st)

/-- `COMPRESSION_THRESHOLD` in `message_memory.py`. -/
def COMPRESSION_THRESHOLD : Nat := 8

/-- `KEEP_RECENT_MESSAGES` in `message_memory.py`. -/
def KEEP_RECENT_MESSAGES : Nat := 4

/-- Python's `len(s.strip()) > 0`: the string has at least one
non-whitespace character. -/
def pyStripNonempty (s : String) : Bool :=
  s.data.any (fun c => !c.isWhitespace)

/-- `_build_optimized_messages`: `recent = full_messages[index:]`; when the
summary strips to nonempty and at least one recent message remains, a
synthetic `user` context message is prepended (a Python `None` or `""` summary
is falsy and also strips to empty, so the `match`/`pyStripNonempty` test below
matches `if summary and len(summary.strip()) > 0 and len(recent_messages) > 0`). -/
def buildOptimizedMessages (summary : Option String) (fullMessages : List Msg)
    (index : Nat) : List Msg :=
  let recentMessages := fullMessages.drop index
  match summary with
  | some s =>
      if pyStripNonempty s ∧ recentMessages.length > 0 then
        { role := "user",
          content := .str ("[Context from previous conversation]: " ++ s) } :: recentMessages
      else recentMessages
  | none => recentMessages

/-- Fault-injection flags: whether each database call-site inside
`message_memory_optimize` raises (SQLAlchemy errors propagate out of the DAO
after a rollback, so a raising call leaves the store unchanged). -/
structure Faults where
  getRaises : Bool
  saveRaises : Bool
  updRaises : Bool
  deriving DecidableEq, Repr

/-- Normal operation: no database call raises. -/
def noFaults : Faults := { getRaises := false, saveRaises := false, updRaises := false }

/-- `message_memory_optimize(session_id, messages)`.  The summarizer is an
oracle; `.error` models `generate_summary` raising.  Every raising step lands
in the function's `except Exception` handler, which returns the original
`messages` (the store keeps whatever had already been committed). -/
def messageMemoryOptimize (f : Faults)
    (summarize : List Msg → Option String → Except Unit String)
    (st : Store) (sessionId : String) (messages : List Msg) :
    List Msg × Store :=
  if f.getRaises then (messages, st) else
  match getSessionMessage st sessionId with
  | none =>
      -- first-turn bypass: create the record, return the input unchanged
      if f.saveRaises then (messages, st) else
      (messages, saveSessionMessage st sessionId messages 0 none none)
  | some record =>
      let currentIndex := record.index
      let currentSummary := record.summary
      if f.saveRaises then (messages, st) else
      let st1 := saveSessionMessage st sessionId messages currentIndex currentSummary none
      let uncompressedCount : Int := (messages.length : Int) - (currentIndex : Int)
      if uncompressedCount ≤ (COMPRESSION_THRESHOLD : Int) then
        (buildOptimizedMessages currentSummary messages currentIndex, st1)
      else
        let compressEndIndex := messages.length - KEEP_RECENT_MESSAGES
        let messagesToCompress := (messages.take compressEndIndex).drop currentIndex
        match summarize messagesToCompress currentSummary with
        | .error _ => (messages, st1)
        | .ok newSummary =>
            if f.updRaises then (messages, st1) else
            let st2 := (updateSummary st1 sessionId newSummary compressEndIndex).2
            (buildOptimizedMessages (some newSummary) messages compressEndIndex, st2)

/-! ## Summarizer (`summary_agent.py`) -/

/-- Outcome of the LLM call inside `generate_summary`: `.ok parsed` is a
completed request (`parsed = none` models `completion...parsed` being `None`,
or the degraded plain-completion path yielding `None` content), `.raises`
is any exception reaching the outer `except Exception` handler. -/
inductive LLMOutcome
  | ok : Option String → LLMOutcome
  | raises : LLMOutcome
  deriving DecidableEq, Repr

/-- `generate_summary(messages, previous_summary)`.  On a completed request
`summary_text = result.summary if result else ""` and the final
`if summary_text: return summary_text / else: return ""`; on an exception the
fallback `f"Conversation with {len(messages)} messages"` is returned, with a
truthy previous summary prepended as `f"{previous_summary} | {fallback}"`. -/
def generateSummary (llm : LLMOutcome) (messages : List Msg)
    (previousSummary : Option String) : String :=
  match llm with
  | .ok parsed =>
      let summaryText := parsed.getD ""
      if summaryText.isEmpty then "" else summaryText
  | .raises =>
      let fallback := "Conversation with " ++ toString messages.length ++ " messages"
      match previousSummary with
      | some p => if p.isEmpty then fallback else p ++ " | " ++ fallback
      | none => fallback

/-! ## Model gateway (`model_gateway.py`, `model_source_base.py`) -/

/-- `ModelSourceType` enum. -/
inductive ModelSourceType
  | HUGGINGFACE
  | CIVITAI
  | LOCAL
  | MODELSCOPE
  deriving DecidableEq, Repr

/-- The normalized `ModelInfo` dataclass. `metadata` is an opaque upstream
blob never inspected by the gateway and is omitted. -/
structure ModelInfo where
  id : String
  name : String
  source : ModelSourceType
  path : Option String := none
  description : Option String := none
  downloads : Option Int := none
  likes : Option Int := none
  tags : Option (List String) := none
  lastUpdated : Option String := none
  size : Option Int := none
  modelType : Option String := none
  thumbnailUrl : Option String := none
  author : Option String := none
  license : Option String := none
  deriving DecidableEq, Repr

/-- The `SearchResult` dataclass. -/
structure SearchResult where
  models : List ModelInfo
  total : Int
  source : ModelSourceType
  page : Nat
  pageSize : Nat
  deriving DecidableEq, Repr

/-- One registered source adapter, abstracted to its observable behavior.
`search` takes the `(page, page_size)` the gateway passes; an `.error` models
the adapter raising. -/
structure Adapter where
  isAvailable : Bool
  search : Nat → Nat → Except Unit SearchResult
  getInfo : String → Except Unit (Option ModelInfo)
  download : String → Except Unit String
  deriving Inhabited

/-- `self.sources`: an insertion-ordered dict from source type to adapter. -/
abbrev Gateway := List (ModelSourceType × Adapter)

/-- Dict lookup `self.sources.get(t)` (keys are unique in a Python dict;
first match). -/
def findAdapter : Gateway → ModelSourceType → Option Adapter
  | [], _ => none
  | (t, a) :: rest, s => if s = t then some a else findAdapter rest s

/-- `list(self.sources.keys())` in insertion order. -/
def gatewayKeys (gw : Gateway) : List ModelSourceType := gw.map (·.1)

/-- The degraded `SearchResult(models=[], total=0, ...)` built for an
unavailable or failing source. -/
def emptySearchResult (t : ModelSourceType) (page pageSize : Nat) : SearchResult :=
  { models := [], total := 0, source := t, page := page, pageSize := pageSize }

/-- `search_sources = sources or list(self.sources.keys())` (an empty
`sources` list is falsy) followed by
`[s for s in search_sources if s in self.sources]`. -/
def selectedSources (gw : Gateway) (sources : Option (List ModelSourceType)) :
    List ModelSourceType :=
  let searchSources :=
    match sources with
    | some ss => if ss.isEmpty then gatewayKeys gw else ss
    | none => gatewayKeys gw
  searchSources.filter (fun s => (findAdapter gw s).isSome)

/-- The per-source task body `search_source` inside `search_all`: an
unavailable adapter yields the empty result, a raising adapter is caught and
degraded to the empty result, otherwise the adapter's result is returned. -/
def searchOneSource (gw : Gateway) (page pageSize : Nat) (t : ModelSourceType) :
    ModelSourceType × SearchResult :=
  match findAdapter gw t with
  | none => (t, emptySearchResult t page pageSize)
  | some a =>
      if a.isAvailable then
        match a.search page pageSize with
        | .ok r => (t, r)
        | .error _ => (t, emptySearchResult t page pageSize)
      else (t, emptySearchResult t page pageSize)

/-- `ModelGateway.search_all`: dispatches to each selected registered source
(`asyncio.gather` preserves the task order) and never raises. -/
def searchAll (gw : Gateway) (page pageSize : Nat)
    (sources : Option (List ModelSourceType)) :
    List (ModelSourceType × SearchResult) :=
  (selectedSources gw sources).map (searchOneSource gw page pageSize)

/-- Python's stable `list.sort(key=key, reverse=True)` on an integer key. -/
def pySortDescInt (key : ModelInfo → Int) (l : List ModelInfo) : List ModelInfo :=
  l.mergeSort (fun a b => decide (key b ≤ key a))

/-- Python's stable `list.sort(key=key, reverse=True)` on a string key. -/
def pySortDescStr (key : ModelInfo → String) (l : List ModelInfo) : List ModelInfo :=
  l.mergeSort (fun a b => decide (key b ≤ key a))

/-- Python's stable `list.sort(key=key)` on a string key. -/
def pySortAscStr (key : ModelInfo → String) (l : List ModelInfo) : List ModelInfo :=
  l.mergeSort (fun a b => decide (key a ≤ key b))

/-- The sort key `lambda m: m.downloads or 0` (`None` and `0` both map to `0`,
any other stored integer is kept, including a negative one). -/
def downloadsKey (m : ModelInfo) : Int := m.downloads.getD 0

/-- `ModelGateway.search_unified`: over-fetches page 1 of size
`page_size * len(self.sources)` from every source, concatenates the per-source
model lists in dict order, re-sorts by the requested criterion with Python's
stable sort, and re-paginates the merged sequence. -/
def searchUnified (gw : Gateway) (page pageSize : Nat) (sortBy : Option String)
    (sources : Option (List ModelSourceType)) : SearchResult :=
  let allResults := searchAll gw 1 (pageSize * gw.length) sources
  let combinedModels := (allResults.map (fun pr => pr.2.models)).flatten
  let totalCount := (allResults.map (fun pr => pr.2.total)).sum
  let sorted :=
    if sortBy = some "downloads" then pySortDescInt downloadsKey combinedModels
    else if sortBy = some "likes" then pySortDescInt (fun m => m.likes.getD 0) combinedModels
    else if sortBy = some "updated" then pySortDescStr (fun m => m.lastUpdated.getD "") combinedModels
    else if sortBy = some "name" then pySortAscStr (fun m => m.name.toLower) combinedModels
    else combinedModels
  { models := (sorted.drop ((page - 1) * pageSize)).take pageSize,
    total := totalCount,
    source := ModelSourceType.LOCAL,
    page := page,
    pageSize := pageSize }

/-- The last-resort loop of `get_model_info`: try every registered adapter in
registration order; `if info: return info`, a raising adapter is skipped
(`except: continue`). -/
def tryAllSources : Gateway → String → Option ModelInfo
  | [], _ => none
  | (_, a) :: rest, modelId =>
      match a.getInfo modelId with
      | .ok (some info) => some info
      | _ => tryAllSources rest modelId

/-- Python's `str.isdigit` restricted to ASCII decimal digits (the only kind
a Civitai id contains): nonempty and all characters in `0`..`9`. -/
def pyIsDigit (s : String) : Bool := !s.data.isEmpty && s.data.all Char.isDigit

/-- Python's `s.startswith(pat)`. -/
def pyStartsWith (s pat : String) : Bool := pat.data.isPrefixOf s.data

/-- Python's `c in s` for a single-character needle. -/
def pyContainsChar (s : String) (c : Char) : Bool := s.data.contains c

/-- `ModelGateway.get_model_info`.  An explicit source is queried directly.
Otherwise the id is routed by the inference rule; when the inferred source is
registered its answer (even `None`) is returned as-is and its exceptions
propagate; when the id matches a rule whose source is unregistered, or matches
no rule, every registered adapter is tried in order. -/
def getModelInfo (gw : Gateway) (modelId : String)
    (sourceType : Option ModelSourceType) : Except Unit (Option ModelInfo) :=
  match sourceType with
  | some t =>
      match findAdapter gw t with
      | some a => a.getInfo modelId
      | none => .ok none
  | none =>
      if pyStartsWith modelId "local:" then
        match findAdapter gw ModelSourceType.LOCAL with
        | some a => a.getInfo modelId
        | none => .ok (tryAllSources gw modelId)
      else if pyContainsChar modelId '/' then
        match findAdapter gw ModelSourceType.HUGGINGFACE with
        | some a => a.getInfo modelId
        | none => .ok (tryAllSources gw modelId)
      else if pyIsDigit modelId then
        match findAdapter gw ModelSourceType.CIVITAI with
        | some a => a.getInfo modelId
        | none => .ok (tryAllSources gw modelId)
      else
        .ok (tryAllSources gw modelId)

/-- Errors out of `ModelGateway.download_model`: a `ValueError` raised by the
gateway itself, or an exception propagated unchanged from the adapter. -/
inductive GatewayErr
  | valueError : String → GatewayErr
  | adapterError : GatewayErr
  deriving DecidableEq, Repr

/-- `ModelGateway.download_model`: resolves the adapter (explicit or inferred
by the same id rule), raises `ValueError` when resolution fails, and delegates
to the adapter, propagating its errors. -/
def downloadModel (gw : Gateway) (modelId : String)
    (sourceType : Option ModelSourceType) : Except GatewayErr String :=
  let resolved : Except GatewayErr Adapter :=
    match sourceType with
    | some t =>
        match findAdapter gw t with
        | some a => .ok a
        | none => .error (.valueError "Source not available")
    | none =>
        if pyStartsWith modelId "local:" then
          match findAdapter gw ModelSourceType.LOCAL with
          | some a => .ok a
          | none => .error (.valueError "No source available for model_id")
        else if pyContainsChar modelId '/' then
          match findAdapter gw ModelSourceType.HUGGINGFACE with
          | some a => .ok a
          | none => .error (.valueError "No source available for model_id")
        else if pyIsDigit modelId then
          match findAdapter gw ModelSourceType.CIVITAI with
          | some a => .ok a
          | none => .error (.valueError "No source available for model_id")
        else .error (.valueError "Could not infer source from model_id")
  match resolved with
  | .error e => .error e
  | .ok a =>
      match a.download modelId with
      | .ok p => .ok p
      | .error _ => .error .adapterError

/-! ## Download progress callback (`model_api.py`, `DownloadProgressCallback`) -/

/-- The shared dict entry `download_progress[download_id]` (the identifying
`id`/`filename`/`start_time` fields are write-once and never read back by the
callback, so they are omitted).  `totalTime` only appears after `end`. -/
structure ProgressRecord where
  fileSize : Nat
  progress : Nat
  percentage : ℚ
  speed : ℚ
  estimatedTime : Option ℚ
  status : String
  errorMessage : Option String
  totalTime : Option ℚ
  deriving DecidableEq, Repr

/-- A `DownloadProgressCallback` object together with its shared registry
entry.  `record = none` models the entry having been deleted from
`download_progress` by the cleanup route (every registry write is guarded by
`if self.download_id in download_progress`). -/
structure DPCState where
  fileSize : Nat
  progress : Nat
  status : String
  errorMessage : Option String
  record : Option ProgressRecord
  deriving DecidableEq, Repr

/-- `DownloadProgressCallback.__init__`: zero progress, status
`"downloading"`, and a fresh registry entry. -/
def initDPC (fileSize : Nat) : DPCState :=
  { fileSize := fileSize, progress := 0, status := "downloading", errorMessage := none,
    record := some { fileSize := fileSize, progress := 0, percentage := 0, speed := 0,
                     estimatedTime := none, status := "downloading",
                     errorMessage := none, totalTime := none } }

/-- Python's `round(x, 2)` over exact rationals (ties are rounded up rather
than to even; the difference only affects exact `.xx5` ties and no claim here
depends on tie direction). -/
def round2 (q : ℚ) : ℚ := ((⌊q * 100 + 1 / 2⌋ : ℤ) : ℚ) / 100

/-- The percentage formula of `update`:
`(progress / file_size) * 100 if file_size > 0 else 0`. -/
def pctOf (fileSize progress : Nat) : ℚ :=
  if 0 < fileSize then (progress : ℚ) / (fileSize : ℚ) * 100 else 0

/-- `DownloadProgressCallback.update(size)`.  `elapsed` is the wall-clock
reading `time.time() - self.start_time`.  Note there is no status guard: the
registry entry is rewritten whenever it exists, regardless of whether `end`
has already run. -/
def DPCState.update (s : DPCState) (size : Nat) (elapsed : ℚ) : DPCState :=
  let progress := s.progress + size
  let speed : ℚ := if 0 < elapsed then (progress : ℚ) / elapsed else 0
  let estimatedTime : Option ℚ :=
    if 0 < elapsed ∧ 0 < speed ∧ progress < s.fileSize then
      some (((s.fileSize - progress : Nat) : ℚ) / speed)
    else none
  let percentage : ℚ := pctOf s.fileSize progress
  { s with
    progress := progress,
    record := s.record.map (fun r =>
      { r with
        progress := progress,
        percentage := round2 percentage,
        speed := round2 speed,
        estimatedTime := match estimatedTime with
          | some t => if t = 0 then none else some (round2 t)
          | none => none }) }

/-- The registry write at the end of `DownloadProgressCallback.end`, applied
to the object state after the status/error fields have been set. -/
def applyFinalRecord (s : DPCState) (success : Bool) (totalTime : ℚ) : DPCState :=
  { s with
    record := s.record.map (fun r =>
      { r with
        status := s.status,
        progress := if success then s.fileSize else s.progress,
        percentage :=
          if 0 < s.fileSize then
            (if success then 100 else (s.progress : ℚ) / (s.fileSize : ℚ) * 100)
          else 0,
        totalTime := some (round2 totalTime),
        errorMessage := s.errorMessage }) }

/-- `DownloadProgressCallback.end(success, error_message)`.  `totalTime` is
the wall-clock reading.  On `success=True` the object's status is set to
`"completed"` and then `assert self.progress == self.file_size` runs: when it
fails the `AssertionError` propagates (second component) before the registry
write, so the shared entry is left untouched. -/
def DPCState.endOp (s : DPCState) (success : Bool) (errorMessage : Option String)
    (totalTime : ℚ) : DPCState × Option String :=
  if success then
    let s1 := { s with status := "completed" }
    if s1.progress = s1.fileSize then
      (applyFinalRecord s1 true totalTime, none)
    else
      (s1, some "Download incomplete")
  else
    let s1 := { s with status := "failed", errorMessage := errorMessage }
    (applyFinalRecord s1 false totalTime, none)

/-! ## Concrete fixtures used by witnesses and counterexamples -/

/-- A dummy chat message. -/
def exMsg (i : Nat) : Msg := { role := "user", content := .str (toString i) }

/-- A list of `n` dummy messages. -/
def exMsgs (n : Nat) : List Msg := (List.range n).map exMsg

/-- A deterministic summarizer oracle that never raises. -/
def exSummarize : List Msg → Option String → Except Unit String :=
  fun ms _ => .ok ("S" ++ toString ms.length)

/-- A summarizer oracle that always raises. -/
def exSummarizeFail : List Msg → Option String → Except Unit String :=
  fun _ _ => .error ()

/-- A store holding one fresh record (index 0, no summary) for session "s". -/
def exStore1 : Store := fun k =>
  if k = "s" then
    some { messages := [], index := 0, summary := none, attributes := none }
  else none

/-- The empty store. -/
def exStoreEmpty : Store := fun _ => none

/-! ## C1: compression threshold behavior -/

/-- C1: for a session whose stored record has `compacted_index = 0` and no
summary, `message_memory_optimize` with exactly 8 messages performs no
compaction (index stays 0, the full list is returned); with 9 messages it
compacts: the summarizer receives `messages[0:5]`, the stored index becomes
`9 - 4 = 5`, and the view is one synthetic context message followed by
`messages[5:9]` (4 messages). The 9-message part assumes the produced summary
strips to nonempty (`_build_optimized_messages` drops the context message for
a whitespace-only summary). -/
theorem c1_threshold_behavior
    (st : Store) (sid : String) (m0 : List Msg) (attrs : Option String)
    (summarize : List Msg → Option String → Except Unit String)
    (hrec : st sid = some { messages := m0, index := 0, summary := none, attributes := attrs }) :
    (∀ msgs : List Msg, msgs.length = 8 →
      (messageMemoryOptimize noFaults summarize st sid msgs).1 = msgs ∧
      ((messageMemoryOptimize noFaults summarize st sid msgs).2 sid).map SessionRecord.index = some 0)
    ∧
    (∀ (msgs : List Msg) (s : String), msgs.length = 9 →
      summarize (msgs.take 5) none = .ok s → pyStripNonempty s = true →
      (messageMemoryOptimize noFaults summarize st sid msgs).1 =
        { role := "user", content := .str ("[Context from previous conversation]: " ++ s) } :: msgs.drop 5 ∧
      (msgs.drop 5).length = 4 ∧
      ((messageMemoryOptimize noFaults summarize st sid msgs).2 sid).map SessionRecord.index = some 5 ∧
      ((messageMemoryOptimize noFaults summarize st sid msgs).2 sid).map SessionRecord.summary = some (some s)) := by
  constructor
  · intro msgs hlen
    simp [messageMemoryOptimize, noFaults, getSessionMessage, hrec, hlen,
      COMPRESSION_THRESHOLD, buildOptimizedMessages, saveSessionMessage]
  · intro msgs s hlen hsum hstrip
    simp [messageMemoryOptimize, noFaults, getSessionMessage, hrec, hlen,
      COMPRESSION_THRESHOLD, KEEP_RECENT_MESSAGES, hsum, buildOptimizedMessages,
      saveSessionMessage, updateSummary, hstrip]

/-- Witness for C1 at a concrete store, summarizer and message lists. -/
theorem c1_threshold_behavior_witness :
    ((messageMemoryOptimize noFaults exSummarize exStore1 "s" (exMsgs 8)).1 = exMsgs 8 ∧
     ((messageMemoryOptimize noFaults exSummarize exStore1 "s" (exMsgs 8)).2 "s").map SessionRecord.index = some 0)
    ∧
    ((messageMemoryOptimize noFaults exSummarize exStore1 "s" (exMsgs 9)).1 =
        { role := "user", content := .str ("[Context from previous conversation]: " ++ "S5") } :: (exMsgs 9).drop 5 ∧
     ((exMsgs 9).drop 5).length = 4 ∧
     ((messageMemoryOptimize noFaults exSummarize exStore1 "s" (exMsgs 9)).2 "s").map SessionRecord.index = some 5 ∧
     ((messageMemoryOptimize noFaults exSummarize exStore1 "s" (exMsgs 9)).2 "s").map SessionRecord.summary = some (some "S5")) :=
  ⟨(c1_threshold_behavior exStore1 "s" [] none exSummarize (by decide)).1 (exMsgs 8) (by decide),
   (c1_threshold_behavior exStore1 "s" [] none exSummarize (by decide)).2 (exMsgs 9) "S5"
     (by decide) (by rfl) (by decide)⟩

/-! ## C2, C3, C9: memory-compaction invariants, idempotence and failure semantics -/

/-- Reading back the session id just written by `save_session_message`. -/
theorem save_self_eq (st : Store) (sid : String) (msgs : List Msg) (i : Nat)
    (s : Option String) :
    saveSessionMessage st sid msgs i s none sid =
      some { messages := msgs, index := i, summary := s,
             attributes := match st sid with | some r => r.attributes | none => none } := by
  simp only [saveSessionMessage, if_pos rfl]
  cases hst : st sid <;> rfl

/-- Reading back the session id just written by `update_summary`. -/
theorem updateSummary_self_eq (st : Store) (sid : String) (s : String) (i : Nat)
    (r : SessionRecord) (h : st sid = some r) :
    (updateSummary st sid s i).2 sid = some { r with summary := some s, index := i } := by
  simp [updateSummary, h]

/-- A raising `get_session_message` lands in the handler: original messages, store untouched. -/
theorem optimize_eq_of_getRaises (f : Faults)
    (summarize : List Msg → Option String → Except Unit String)
    (st : Store) (sid : String) (msgs : List Msg) (hg : f.getRaises = true) :
    messageMemoryOptimize f summarize st sid msgs = (msgs, st) := by
  simp [messageMemoryOptimize, hg]

/-- A raising `save_session_message` lands in the handler: original messages, store untouched. -/
theorem optimize_eq_of_saveRaises (f : Faults)
    (summarize : List Msg → Option String → Except Unit String)
    (st : Store) (sid : String) (msgs : List Msg)
    (hg : f.getRaises = false) (hs : f.saveRaises = true) :
    messageMemoryOptimize f summarize st sid msgs = (msgs, st) := by
  simp only [messageMemoryOptimize, getSessionMessage, hg, Bool.false_eq_true,
    if_false, hs, if_true]
  cases hst : st sid <;> simp

/-- First-turn bypass: absent record is created with index 0 and no summary. -/
theorem optimize_eq_of_new (f : Faults)
    (summarize : List Msg → Option String → Except Unit String)
    (st : Store) (sid : String) (msgs : List Msg)
    (hg : f.getRaises = false) (hs : f.saveRaises = false) (hr : st sid = none) :
    messageMemoryOptimize f summarize st sid msgs =
      (msgs, saveSessionMessage st sid msgs 0 none none) := by
  simp [messageMemoryOptimize, getSessionMessage, hg, hs, hr]

/-- Below or at the threshold: record is re-saved unchanged, view built from the stored summary. -/
theorem optimize_eq_of_nocompress (f : Faults)
    (summarize : List Msg → Option String → Except Unit String)
    (st : Store) (sid : String) (msgs : List Msg) (r : SessionRecord)
    (hg : f.getRaises = false) (hs : f.saveRaises = false) (hr : st sid = some r)
    (hle : (msgs.length : Int) - (r.index : Int) ≤ (COMPRESSION_THRESHOLD : Int)) :
    messageMemoryOptimize f summarize st sid msgs =
      (buildOptimizedMessages r.summary msgs r.index,
       saveSessionMessage st sid msgs r.index r.summary none) := by
  simp [messageMemoryOptimize, getSessionMessage, hg, hs, hr, hle]

/-- Compression triggered but the summarizer raises: fallback to the input, only the re-save is kept. -/
theorem optimize_eq_of_compress_err (f : Faults)
    (summarize : List Msg → Option String → Except Unit String)
    (st : Store) (sid : String) (msgs : List Msg) (r : SessionRecord)
    (hg : f.getRaises = false) (hs : f.saveRaises = false) (hr : st sid = some r)
    (hgt : ¬ ((msgs.length : Int) - (r.index : Int) ≤ (COMPRESSION_THRESHOLD : Int)))
    (hsum : summarize ((msgs.take (msgs.length - KEEP_RECENT_MESSAGES)).drop r.index) r.summary
      = .error ()) :
    messageMemoryOptimize f summarize st sid msgs =
      (msgs, saveSessionMessage st sid msgs r.index r.summary none) := by
  simp [messageMemoryOptimize, getSessionMessage, hg, hs, hr, hgt, hsum]

/-- Compression triggered but `update_summary` raises: fallback to the input, only the re-save is kept. -/
theorem optimize_eq_of_updRaises (f : Faults)
    (summarize : List Msg → Option String → Except Unit String)
    (st : Store) (sid : String) (msgs : List Msg) (r : SessionRecord) (ns : String)
    (hg : f.getRaises = false) (hs : f.saveRaises = false) (hu : f.updRaises = true)
    (hr : st sid = some r)
    (hgt : ¬ ((msgs.length : Int) - (r.index : Int) ≤ (COMPRESSION_THRESHOLD : Int)))
    (hsum : summarize ((msgs.take (msgs.length - KEEP_RECENT_MESSAGES)).drop r.index) r.summary
      = .ok ns) :
    messageMemoryOptimize f summarize st sid msgs =
      (msgs, saveSessionMessage st sid msgs r.index r.summary none) := by
  simp [messageMemoryOptimize, getSessionMessage, hg, hs, hu, hr, hgt, hsum]

/-- Compression succeeds: summary and index are rewritten, compacted view returned. -/
theorem optimize_eq_of_compress_ok (f : Faults)
    (summarize : List Msg → Option String → Except Unit String)
    (st : Store) (sid : String) (msgs : List Msg) (r : SessionRecord) (ns : String)
    (hg : f.getRaises = false) (hs : f.saveRaises = false) (hu : f.updRaises = false)
    (hr : st sid = some r)
    (hgt : ¬ ((msgs.length : Int) - (r.index : Int) ≤ (COMPRESSION_THRESHOLD : Int)))
    (hsum : summarize ((msgs.take (msgs.length - KEEP_RECENT_MESSAGES)).drop r.index) r.summary
      = .ok ns) :
    messageMemoryOptimize f summarize st sid msgs =
      (buildOptimizedMessages (some ns) msgs (msgs.length - KEEP_RECENT_MESSAGES),
       (updateSummary (saveSessionMessage st sid msgs r.index r.summary none) sid ns
         (msgs.length - KEEP_RECENT_MESSAGES)).2) := by
  simp [messageMemoryOptimize, getSessionMessage, hg, hs, hu, hr, hgt, hsum]

/-- C2 (amended): across any single `message_memory_optimize` call (and hence any
sequence of calls), the stored `compacted_index` never decreases; and provided
each call passes a message list at least as long as the stored one, the bound
`compacted_index <= len(stored messages)` is preserved.  (As frozen, the claim
fails for shrinking inputs: see the counterexample.) -/
theorem c2_index_invariant
    (f : Faults) (summarize : List Msg → Option String → Except Unit String)
    (st : Store) (sid : String) (msgs : List Msg) :
    (∀ r r', st sid = some r →
      (messageMemoryOptimize f summarize st sid msgs).2 sid = some r' →
      r.index ≤ r'.index)
    ∧
    ((∀ r, st sid = some r → r.index ≤ r.messages.length ∧ r.messages.length ≤ msgs.length) →
      ∀ r', (messageMemoryOptimize f summarize st sid msgs).2 sid = some r' →
      r'.index ≤ r'.messages.length) := by
  constructor
  · intro r r' hr hr'
    cases hg : f.getRaises with
    | true =>
        rw [optimize_eq_of_getRaises _ _ _ _ _ hg] at hr'
        dsimp at hr'; rw [hr] at hr'
        injection hr' with h; subst h; exact Nat.le_refl _
    | false =>
      cases hs : f.saveRaises with
      | true =>
          rw [optimize_eq_of_saveRaises _ _ _ _ _ hg hs] at hr'
          dsimp at hr'; rw [hr] at hr'
          injection hr' with h; subst h; exact Nat.le_refl _
      | false =>
        by_cases hle : (msgs.length : Int) - (r.index : Int) ≤ (COMPRESSION_THRESHOLD : Int)
        · rw [optimize_eq_of_nocompress _ _ _ _ _ r hg hs hr hle] at hr'
          dsimp at hr'; rw [save_self_eq] at hr'
          injection hr' with h; subst h; exact Nat.le_refl _
        · cases hsum : summarize ((msgs.take (msgs.length - KEEP_RECENT_MESSAGES)).drop r.index) r.summary with
          | error e =>
              cases e
              rw [optimize_eq_of_compress_err _ _ _ _ _ r hg hs hr hle hsum] at hr'
              dsimp at hr'; rw [save_self_eq] at hr'
              injection hr' with h; subst h; exact Nat.le_refl _
          | ok ns =>
            cases hu : f.updRaises with
            | true =>
                rw [optimize_eq_of_updRaises _ _ _ _ _ r ns hg hs hu hr hle hsum] at hr'
                dsimp at hr'; rw [save_self_eq] at hr'
                injection hr' with h; subst h; exact Nat.le_refl _
            | false =>
                rw [optimize_eq_of_compress_ok _ _ _ _ _ r ns hg hs hu hr hle hsum] at hr'
                dsimp at hr'
                rw [updateSummary_self_eq _ _ _ _ _ (save_self_eq st sid msgs r.index r.summary)] at hr'
                injection hr' with h; subst h
                simp only [COMPRESSION_THRESHOLD, KEEP_RECENT_MESSAGES] at *
                omega
  · intro hbound r' hr'
    cases hg : f.getRaises with
    | true =>
        rw [optimize_eq_of_getRaises _ _ _ _ _ hg] at hr'
        dsimp at hr'
        exact (hbound r' hr').1
    | false =>
      cases hs : f.saveRaises with
      | true =>
          rw [optimize_eq_of_saveRaises _ _ _ _ _ hg hs] at hr'
          dsimp at hr'
          exact (hbound r' hr').1
      | false =>
        cases hr : st sid with
        | none =>
            rw [optimize_eq_of_new _ _ _ _ _ hg hs hr] at hr'
            dsimp at hr'; rw [save_self_eq] at hr'
            injection hr' with h; subst h
            exact Nat.zero_le _
        | some r =>
          by_cases hle : (msgs.length : Int) - (r.index : Int) ≤ (COMPRESSION_THRESHOLD : Int)
          · rw [optimize_eq_of_nocompress _ _ _ _ _ r hg hs hr hle] at hr'
            dsimp at hr'; rw [save_self_eq] at hr'
            injection hr' with h; subst h
            exact ((hbound r hr).1).trans (hbound r hr).2
          · cases hsum : summarize ((msgs.take (msgs.length - KEEP_RECENT_MESSAGES)).drop r.index) r.summary with
            | error e =>
                cases e
                rw [optimize_eq_of_compress_err _ _ _ _ _ r hg hs hr hle hsum] at hr'
                dsimp at hr'; rw [save_self_eq] at hr'
                injection hr' with h; subst h
                exact ((hbound r hr).1).trans (hbound r hr).2
            | ok ns =>
              cases hu : f.updRaises with
              | true =>
                  rw [optimize_eq_of_updRaises _ _ _ _ _ r ns hg hs hu hr hle hsum] at hr'
                  dsimp at hr'; rw [save_self_eq] at hr'
                  injection hr' with h; subst h
                  exact ((hbound r hr).1).trans (hbound r hr).2
              | false =>
                  rw [optimize_eq_of_compress_ok _ _ _ _ _ r ns hg hs hu hr hle hsum] at hr'
                  dsimp at hr'
                  rw [updateSummary_self_eq _ _ _ _ _ (save_self_eq st sid msgs r.index r.summary)] at hr'
                  injection hr' with h; subst h
                  simp only [KEEP_RECENT_MESSAGES]
                  omega

/-- C2 counterexample: create a session with 9 messages, compact it (index 5),
then call `message_memory_optimize` with an empty list: the stored record ends
with `compacted_index = 5 > 0 = len(messages)`, refuting the claimed invariant
for arbitrary call sequences. -/
theorem c2_invariant_counterexample :
    ((messageMemoryOptimize noFaults exSummarize
        ((messageMemoryOptimize noFaults exSummarize
            ((messageMemoryOptimize noFaults exSummarize exStoreEmpty "s" (exMsgs 9)).2)
            "s" (exMsgs 9)).2)
        "s" ([] : List Msg)).2 "s").map
      (fun r => decide (r.index ≤ r.messages.length)) = some false := by decide

/-- C3 counterexample: on a brand-new session with 9 messages, the first call
returns all 9 raw messages (creation bypass, stored index 0) while the second
call with the same list compacts: a different view, and the stored index
advances from 0 to 5 — refuting idempotence for fresh sessions. -/
theorem c3_idempotence_counterexample :
    (messageMemoryOptimize noFaults exSummarize
        ((messageMemoryOptimize noFaults exSummarize exStoreEmpty "s" (exMsgs 9)).2)
        "s" (exMsgs 9)).1
      ≠ (messageMemoryOptimize noFaults exSummarize exStoreEmpty "s" (exMsgs 9)).1
    ∧ (((messageMemoryOptimize noFaults exSummarize exStoreEmpty "s" (exMsgs 9)).2) "s").map
        SessionRecord.index = some 0
    ∧ (((messageMemoryOptimize noFaults exSummarize
          ((messageMemoryOptimize noFaults exSummarize exStoreEmpty "s" (exMsgs 9)).2)
          "s" (exMsgs 9)).2) "s").map SessionRecord.index = some 5 := by
  refine ⟨?_, by decide, by decide⟩
  decide

/-- C3 (amended): provided a session record already exists before the first of
the two calls, calling `message_memory_optimize` twice in a row with the same
message list yields the same view both times (under any fault vector applied to
both calls), and the second call does not advance the stored index. -/
theorem c3_idempotent_of_existing
    (f : Faults) (summarize : List Msg → Option String → Except Unit String)
    (st : Store) (sid : String) (msgs : List Msg) (r : SessionRecord)
    (hr : st sid = some r) :
    (messageMemoryOptimize f summarize ((messageMemoryOptimize f summarize st sid msgs).2) sid msgs).1
      = (messageMemoryOptimize f summarize st sid msgs).1
    ∧ (((messageMemoryOptimize f summarize ((messageMemoryOptimize f summarize st sid msgs).2) sid msgs).2) sid).map SessionRecord.index
      = (((messageMemoryOptimize f summarize st sid msgs).2) sid).map SessionRecord.index := by
  cases hg : f.getRaises with
  | true =>
      rw [optimize_eq_of_getRaises _ _ _ _ _ hg, optimize_eq_of_getRaises _ _ _ _ _ hg]
      exact ⟨rfl, rfl⟩
  | false =>
  cases hs : f.saveRaises with
  | true =>
      rw [optimize_eq_of_saveRaises _ _ _ _ _ hg hs, optimize_eq_of_saveRaises _ _ _ _ _ hg hs]
      exact ⟨rfl, rfl⟩
  | false =>
  have hsave : saveSessionMessage st sid msgs r.index r.summary none sid =
      some { messages := msgs, index := r.index, summary := r.summary,
             attributes := r.attributes } := by
    rw [save_self_eq, hr]
  by_cases hle : (msgs.length : Int) - (r.index : Int) ≤ (COMPRESSION_THRESHOLD : Int)
  · rw [optimize_eq_of_nocompress _ _ _ _ _ r hg hs hr hle]
    dsimp only
    rw [optimize_eq_of_nocompress _ _ _ _ _ _ hg hs hsave hle]
    refine ⟨rfl, ?_⟩
    simp only [save_self_eq]
  · cases hsum : summarize ((msgs.take (msgs.length - KEEP_RECENT_MESSAGES)).drop r.index) r.summary with
    | error e =>
        cases e
        rw [optimize_eq_of_compress_err _ _ _ _ _ r hg hs hr hle hsum]
        dsimp only
        rw [optimize_eq_of_compress_err _ _ _ _ _ _ hg hs hsave hle hsum]
        refine ⟨rfl, ?_⟩
        simp only [save_self_eq]
    | ok ns =>
      cases hu : f.updRaises with
      | true =>
          rw [optimize_eq_of_updRaises _ _ _ _ _ r ns hg hs hu hr hle hsum]
          dsimp only
          rw [optimize_eq_of_updRaises _ _ _ _ _ _ ns hg hs hu hsave hle hsum]
          refine ⟨rfl, ?_⟩
          simp only [save_self_eq]
      | false =>
          rw [optimize_eq_of_compress_ok _ _ _ _ _ r ns hg hs hu hr hle hsum]
          dsimp only
          have hupd : (updateSummary (saveSessionMessage st sid msgs r.index r.summary none) sid ns
              (msgs.length - KEEP_RECENT_MESSAGES)).2 sid =
              some { messages := msgs, index := msgs.length - KEEP_RECENT_MESSAGES,
                     summary := some ns, attributes := r.attributes } := by
            rw [updateSummary_self_eq _ _ _ _ _ hsave]
          have hle2 : (msgs.length : Int) -
              ((msgs.length - KEEP_RECENT_MESSAGES : Nat) : Int) ≤ (COMPRESSION_THRESHOLD : Int) := by
            simp only [COMPRESSION_THRESHOLD, KEEP_RECENT_MESSAGES] at *
            omega
          rw [optimize_eq_of_nocompress _ _ _ _ _ _ hg hs hupd hle2]
          refine ⟨rfl, ?_⟩
          simp only [save_self_eq, hupd]

/-- C9: whichever step raises inside `message_memory_optimize` — loading the
record, saving it, summarizing, or writing the new summary — the call returns
the original input message list instead of propagating, and on a summarizer
(or `update_summary`) failure the stored record keeps its prior index and
summary (only the message list was re-saved). -/
theorem c9_failure_fallback
    (f : Faults) (summarize : List Msg → Option String → Except Unit String)
    (st : Store) (sid : String) (msgs : List Msg) :
    (f.getRaises = true → messageMemoryOptimize f summarize st sid msgs = (msgs, st))
    ∧
    (f.getRaises = false → f.saveRaises = true →
      messageMemoryOptimize f summarize st sid msgs = (msgs, st))
    ∧
    (∀ r : SessionRecord, f.getRaises = false → f.saveRaises = false → st sid = some r →
      ¬ ((msgs.length : Int) - (r.index : Int) ≤ (COMPRESSION_THRESHOLD : Int)) →
      summarize ((msgs.take (msgs.length - KEEP_RECENT_MESSAGES)).drop r.index) r.summary = .error () →
      (messageMemoryOptimize f summarize st sid msgs).1 = msgs ∧
      (messageMemoryOptimize f summarize st sid msgs).2 sid =
        some { messages := msgs, index := r.index, summary := r.summary,
               attributes := r.attributes })
    ∧
    (∀ (r : SessionRecord) (ns : String),
      f.getRaises = false → f.saveRaises = false → f.updRaises = true → st sid = some r →
      ¬ ((msgs.length : Int) - (r.index : Int) ≤ (COMPRESSION_THRESHOLD : Int)) →
      summarize ((msgs.take (msgs.length - KEEP_RECENT_MESSAGES)).drop r.index) r.summary = .ok ns →
      (messageMemoryOptimize f summarize st sid msgs).1 = msgs ∧
      (messageMemoryOptimize f summarize st sid msgs).2 sid =
        some { messages := msgs, index := r.index, summary := r.summary,
               attributes := r.attributes }) := by
  refine ⟨?_, ?_, ?_, ?_⟩
  · intro hg
    exact optimize_eq_of_getRaises _ _ _ _ _ hg
  · intro hg hs
    exact optimize_eq_of_saveRaises _ _ _ _ _ hg hs
  · intro r hg hs hr hgt hsum
    rw [optimize_eq_of_compress_err _ _ _ _ _ r hg hs hr hgt hsum]
    refine ⟨rfl, ?_⟩
    dsimp only
    rw [save_self_eq, hr]
  · intro r ns hg hs hu hr hgt hsum
    rw [optimize_eq_of_updRaises _ _ _ _ _ r ns hg hs hu hr hgt hsum]
    refine ⟨rfl, ?_⟩
    dsimp only
    rw [save_self_eq, hr]

/-- Witness for C9 at concrete stores, summarizers and fault vectors. -/
theorem c9_failure_fallback_witness :
    (messageMemoryOptimize { getRaises := true, saveRaises := false, updRaises := false }
        exSummarize exStore1 "s" (exMsgs 9) = (exMsgs 9, exStore1))
    ∧
    (messageMemoryOptimize { getRaises := false, saveRaises := true, updRaises := false }
        exSummarize exStore1 "s" (exMsgs 9) = (exMsgs 9, exStore1))
    ∧
    ((messageMemoryOptimize noFaults exSummarizeFail exStore1 "s" (exMsgs 9)).1 = exMsgs 9 ∧
      (messageMemoryOptimize noFaults exSummarizeFail exStore1 "s" (exMsgs 9)).2 "s" =
        some { messages := exMsgs 9, index := 0, summary := none, attributes := none })
    ∧
    ((messageMemoryOptimize { getRaises := false, saveRaises := false, updRaises := true }
        exSummarize exStore1 "s" (exMsgs 9)).1 = exMsgs 9 ∧
      (messageMemoryOptimize { getRaises := false, saveRaises := false, updRaises := true }
        exSummarize exStore1 "s" (exMsgs 9)).2 "s" =
        some { messages := exMsgs 9, index := 0, summary := none, attributes := none }) :=
  ⟨(c9_failure_fallback _ exSummarize exStore1 "s" (exMsgs 9)).1 rfl,
   (c9_failure_fallback _ exSummarize exStore1 "s" (exMsgs 9)).2.1 rfl rfl,
   (c9_failure_fallback noFaults exSummarizeFail exStore1 "s" (exMsgs 9)).2.2.1
     { messages := [], index := 0, summary := none, attributes := none }
     rfl rfl (by decide) (by decide) (by rfl),
   (c9_failure_fallback _ exSummarize exStore1 "s" (exMsgs 9)).2.2.2
     { messages := [], index := 0, summary := none, attributes := none } "S5"
     rfl rfl rfl (by decide) (by decide) (by rfl)⟩

/-- Witness for C2 (amended) at a concrete store and call. -/
theorem c2_index_invariant_witness :
    (({ messages := [], index := 0, summary := none, attributes := none } : SessionRecord).index ≤
      ({ messages := exMsgs 9, index := 5, summary := some "S5", attributes := none } : SessionRecord).index)
    ∧
    (({ messages := exMsgs 9, index := 5, summary := some "S5", attributes := none } : SessionRecord).index ≤
      ({ messages := exMsgs 9, index := 5, summary := some "S5", attributes := none } : SessionRecord).messages.length) :=
  ⟨(c2_index_invariant noFaults exSummarize exStore1 "s" (exMsgs 9)).1
      { messages := [], index := 0, summary := none, attributes := none }
      { messages := exMsgs 9, index := 5, summary := some "S5", attributes := none }
      (by rfl) (by decide),
   (c2_index_invariant noFaults exSummarize exStore1 "s" (exMsgs 9)).2
      (fun r hr => by
        simp only [exStore1, if_true, Option.some.injEq] at hr
        subst hr
        exact ⟨Nat.le_refl 0, Nat.zero_le 9⟩)
      { messages := exMsgs 9, index := 5, summary := some "S5", attributes := none }
      (by decide)⟩

/-- Witness for C3 (amended) at a concrete store and call. -/
theorem c3_idempotent_of_existing_witness :
    (messageMemoryOptimize noFaults exSummarize
        ((messageMemoryOptimize noFaults exSummarize exStore1 "s" (exMsgs 9)).2) "s" (exMsgs 9)).1
      = (messageMemoryOptimize noFaults exSummarize exStore1 "s" (exMsgs 9)).1
    ∧ (((messageMemoryOptimize noFaults exSummarize
          ((messageMemoryOptimize noFaults exSummarize exStore1 "s" (exMsgs 9)).2) "s" (exMsgs 9)).2) "s").map SessionRecord.index
      = (((messageMemoryOptimize noFaults exSummarize exStore1 "s" (exMsgs 9)).2) "s").map SessionRecord.index :=
  c3_idempotent_of_existing noFaults exSummarize exStore1 "s" (exMsgs 9)
    { messages := [], index := 0, summary := none, attributes := none } (by rfl)

/-! ## C5: summarizer fallback behavior -/

/-- Left operand of a nonempty-length append keeps the append nonempty. -/
theorem append_ne_empty_left (a b : String) (h : 0 < a.length) : a ++ b ≠ "" := by
  intro he
  have hlen := congrArg String.length he
  rw [String.length_append] at hlen
  simp at hlen
  omega

/-- C5 counterexample: when the LLM call completes but yields no parsed
summary (`result` is `None`), `generate_summary` returns the empty string,
refuting "always returns a non-empty string". -/
theorem c5_nonempty_counterexample :
    generateSummary (.ok none) [exMsg 0] none = "" ∧
    generateSummary (.ok (some "")) [exMsg 0] none = "" := by
  exact ⟨rfl, rfl⟩

/-- C5 (amended): `generate_summary` never raises (it is total); on any
underlying exception it returns a non-empty deterministic fallback that
mentions the number of messages (prefixed with a truthy previous summary);
but when the LLM call completes with an empty or missing summary the function
returns the empty string (see the counterexample). -/
theorem c5_fallback_on_failure (messages : List Msg) (prev : Option String) :
    generateSummary .raises messages prev ≠ ""
    ∧ generateSummary .raises messages prev =
        (match prev with
         | some p =>
             if p.isEmpty then "Conversation with " ++ toString messages.length ++ " messages"
             else p ++ " | " ++ ("Conversation with " ++ toString messages.length ++ " messages")
         | none => "Conversation with " ++ toString messages.length ++ " messages") := by
  have hbase : 0 < ("Conversation with " ++ toString messages.length ++ " messages").length := by
    rw [String.length_append, String.length_append]
    have h1 : ("Conversation with " : String).length = 18 := rfl
    omega
  constructor
  · cases prev with
    | none =>
        show ("Conversation with " ++ toString messages.length ++ " messages") ≠ ""
        intro he
        have hlen := congrArg String.length he
        have h0 : ("" : String).length = 0 := rfl
        rw [h0] at hlen
        omega
    | some p =>
        by_cases hp : p.isEmpty
        · show (if p.isEmpty then _ else _) ≠ ""
          rw [if_pos hp]
          intro he
          have hlen := congrArg String.length he
          have h0 : ("" : String).length = 0 := rfl
          rw [h0] at hlen
          omega
        · show (if p.isEmpty then _ else _) ≠ ""
          rw [if_neg hp]
          exact append_ne_empty_left _ _ (by
            rw [String.length_append]
            have h2 : (" | " : String).length = 3 := rfl
            omega)
  · cases prev <;> rfl

/-! ## Gateway fixtures -/

/-- A concrete model entry. -/
def exModelA : ModelInfo := { id := "org/a", name := "a", source := .HUGGINGFACE, downloads := some 5 }

/-- A concrete search result for the healthy adapter. -/
def exResultA : SearchResult :=
  { models := [exModelA], total := 1, source := .HUGGINGFACE, page := 1, pageSize := 30 }

/-- A healthy adapter. -/
def exAdapterA : Adapter :=
  { isAvailable := true, search := fun _ _ => .ok exResultA,
    getInfo := fun _ => .ok (some exModelA), download := fun _ => .ok "path-a" }

/-- An adapter whose every operation raises. -/
def exAdapterFail : Adapter :=
  { isAvailable := true, search := fun _ _ => .error (),
    getInfo := fun _ => .error (), download := fun _ => .error () }

/-- A two-source gateway: a healthy source and a raising one. -/
def exGw2 : Gateway := [(.HUGGINGFACE, exAdapterA), (.CIVITAI, exAdapterFail)]

/-- C7: if one adapter's `search` raises, `search_all` still returns normally
(the embedding is total by construction): the failing source is mapped to
`SearchResult(models=[], total=0)` and every source whose `search` returns
normally keeps its real result unchanged. -/
theorem c7_source_isolation
    (gw : Gateway) (page pageSize : Nat) (sources : Option (List ModelSourceType))
    (t : ModelSourceType) (a : Adapter)
    (hfind : findAdapter gw t = some a)
    (hmem : t ∈ selectedSources gw sources) :
    (a.search page pageSize = .error () →
      (t, emptySearchResult t page pageSize) ∈ searchAll gw page pageSize sources)
    ∧
    (∀ r, a.isAvailable = true → a.search page pageSize = .ok r →
      (t, r) ∈ searchAll gw page pageSize sources) := by
  constructor
  · intro herr
    have hone : searchOneSource gw page pageSize t = (t, emptySearchResult t page pageSize) := by
      unfold searchOneSource
      rw [hfind]
      cases hA : a.isAvailable <;> simp [hA, herr]
    exact hone ▸ List.mem_map_of_mem (searchOneSource gw page pageSize) hmem
  · intro r hA hok
    have hone : searchOneSource gw page pageSize t = (t, r) := by
      unfold searchOneSource
      rw [hfind]
      simp [hA, hok]
    exact hone ▸ List.mem_map_of_mem (searchOneSource gw page pageSize) hmem

/-- Witness for C7 on a concrete two-source gateway where the second source
raises. -/
theorem c7_source_isolation_witness :
    ((ModelSourceType.CIVITAI, emptySearchResult .CIVITAI 1 30) ∈ searchAll exGw2 1 30 none)
    ∧ ((ModelSourceType.HUGGINGFACE, exResultA) ∈ searchAll exGw2 1 30 none) :=
  ⟨(c7_source_isolation exGw2 1 30 none .CIVITAI exAdapterFail (by rfl) (by decide)).1 rfl,
   (c7_source_isolation exGw2 1 30 none .HUGGINGFACE exAdapterA (by rfl) (by decide)).2
     exResultA rfl rfl⟩

/-- If the try-every-adapter loop of `get_model_info` returns `None`, no
registered adapter answered with a model. -/
theorem tryAllSources_none_spec (mid : String) :
    ∀ gw : Gateway, tryAllSources gw mid = none →
      ∀ p ∈ gw, ∀ i, p.2.getInfo mid ≠ .ok (some i)
  | [], _, p, hp, i, hi => by cases hp
  | (t, a) :: tl, h, p, hp, i, hi => by
      simp only [tryAllSources] at h
      cases hga : a.getInfo mid with
      | ok oi =>
          cases oi with
          | some info => rw [hga] at h; exact Option.noConfusion h
          | none =>
              rw [hga] at h
              rcases List.mem_cons.mp hp with hpe | hptl
              · subst hpe; rw [hga] at hi; simp at hi
              · exact tryAllSources_none_spec mid tl h p hptl i hi
      | error e =>
          rw [hga] at h
          rcases List.mem_cons.mp hp with hpe | hptl
          · subst hpe; rw [hga] at hi; simp at hi
          · exact tryAllSources_none_spec mid tl h p hptl i hi

/-- If the try-every-adapter loop returns a model, it comes from the first
registered adapter (in registration order) that answered with one; every
earlier adapter raised or answered `None`. -/
theorem tryAllSources_some_spec (mid : String) :
    ∀ (gw : Gateway) (i : ModelInfo), tryAllSources gw mid = some i →
      ∃ l₁ t a l₂, gw = l₁ ++ (t, a) :: l₂ ∧ a.getInfo mid = .ok (some i) ∧
        ∀ q ∈ l₁, ∀ j, q.2.getInfo mid ≠ .ok (some j)
  | [], i, h => by simp [tryAllSources] at h
  | (t, a) :: tl, i, h => by
      simp only [tryAllSources] at h
      cases hga : a.getInfo mid with
      | ok oi =>
          cases oi with
          | some info =>
              rw [hga] at h
              refine ⟨[], t, a, tl, rfl, ?_, by intro q hq; cases hq⟩
              rw [hga]
              exact congrArg (Except.ok ∘ some) (Option.some.inj h)
          | none =>
              rw [hga] at h
              obtain ⟨l₁, t', a', l₂, heq, hga', hearlier⟩ := tryAllSources_some_spec mid tl i h
              refine ⟨(t, a) :: l₁, t', a', l₂, by rw [heq]; rfl, hga', ?_⟩
              intro q hq j hj
              rcases List.mem_cons.mp hq with hqe | hql
              · subst hqe; rw [hga] at hj; simp at hj
              · exact hearlier q hql j hj
      | error e =>
          rw [hga] at h
          obtain ⟨l₁, t', a', l₂, heq, hga', hearlier⟩ := tryAllSources_some_spec mid tl i h
          refine ⟨(t, a) :: l₁, t', a', l₂, by rw [heq]; rfl, hga', ?_⟩
          intro q hq j hj
          rcases List.mem_cons.mp hq with hqe | hql
          · subst hqe; rw [hga] at hj; simp at hj
          · exact hearlier q hql j hj

/-- C8: with no explicit source, the gateway routes an id by checking in
order: a `local:` prefix goes to the Local adapter, an id containing `/` goes
to the HuggingFace adapter, an all-digits id goes to the Civitai adapter (for
both `get_model_info` and `download_model`); and for `get_model_info` an id
matching none of the rules is tried against every registered adapter in
registration order, the first non-null answer winning. -/
theorem c8_id_inference (gw : Gateway) (mid : String) :
    (∀ a, pyStartsWith mid "local:" = true →
      findAdapter gw ModelSourceType.LOCAL = some a →
      getModelInfo gw mid none = a.getInfo mid ∧
      (∀ p, a.download mid = .ok p → downloadModel gw mid none = .ok p))
    ∧
    (∀ a, pyStartsWith mid "local:" = false → pyContainsChar mid '/' = true →
      findAdapter gw ModelSourceType.HUGGINGFACE = some a →
      getModelInfo gw mid none = a.getInfo mid ∧
      (∀ p, a.download mid = .ok p → downloadModel gw mid none = .ok p))
    ∧
    (∀ a, pyStartsWith mid "local:" = false → pyContainsChar mid '/' = false →
      pyIsDigit mid = true →
      findAdapter gw ModelSourceType.CIVITAI = some a →
      getModelInfo gw mid none = a.getInfo mid ∧
      (∀ p, a.download mid = .ok p → downloadModel gw mid none = .ok p))
    ∧
    (pyStartsWith mid "local:" = false → pyContainsChar mid '/' = false →
      pyIsDigit mid = false →
      getModelInfo gw mid none = .ok (tryAllSources gw mid)
      ∧ (tryAllSources gw mid = none →
          ∀ p ∈ gw, ∀ i, p.2.getInfo mid ≠ .ok (some i))
      ∧ (∀ i, tryAllSources gw mid = some i →
          ∃ l₁ t a l₂, gw = l₁ ++ (t, a) :: l₂ ∧ a.getInfo mid = .ok (some i) ∧
            ∀ q ∈ l₁, ∀ j, q.2.getInfo mid ≠ .ok (some j))) := by
  refine ⟨?_, ?_, ?_, ?_⟩
  · intro a hloc hfind
    refine ⟨by simp [getModelInfo, hloc, hfind], ?_⟩
    intro p hp
    simp [downloadModel, hloc, hfind, hp]
  · intro a hloc hsl hfind
    refine ⟨by simp [getModelInfo, hloc, hsl, hfind], ?_⟩
    intro p hp
    simp [downloadModel, hloc, hsl, hfind, hp]
  · intro a hloc hsl hdig hfind
    refine ⟨by simp [getModelInfo, hloc, hsl, hdig, hfind], ?_⟩
    intro p hp
    simp [downloadModel, hloc, hsl, hdig, hfind, hp]
  · intro hloc hsl hdig
    exact ⟨by simp [getModelInfo, hloc, hsl, hdig],
           tryAllSources_none_spec mid gw,
           tryAllSources_some_spec mid gw⟩

/-- A local model entry. -/
def exModelL : ModelInfo :=
  { id := "local:checkpoints/foo.safetensors", name := "foo", source := .LOCAL }

/-- A HuggingFace model entry. -/
def exModelH : ModelInfo := { id := "org/name", name := "h", source := .HUGGINGFACE }

/-- A Civitai model entry. -/
def exModelC : ModelInfo := { id := "12345", name := "c", source := .CIVITAI }

/-- The Local adapter fixture. -/
def exAdapterL : Adapter :=
  { isAvailable := true, search := fun _ _ => .ok (emptySearchResult .LOCAL 1 30),
    getInfo := fun _ => .ok (some exModelL), download := fun _ => .ok "pl" }

/-- The HuggingFace adapter fixture: knows only "org/name". -/
def exAdapterH : Adapter :=
  { isAvailable := true, search := fun _ _ => .ok (emptySearchResult .HUGGINGFACE 1 30),
    getInfo := fun mid => if mid = "org/name" then .ok (some exModelH) else .ok none,
    download := fun _ => .ok "ph" }

/-- The Civitai adapter fixture: answers every id. -/
def exAdapterC : Adapter :=
  { isAvailable := true, search := fun _ _ => .ok (emptySearchResult .CIVITAI 1 30),
    getInfo := fun _ => .ok (some exModelC), download := fun _ => .ok "pc" }

/-- A gateway with all three sources, in the constructor's registration
order (HuggingFace, Civitai, Local). -/
def exGw3 : Gateway :=
  [(.HUGGINGFACE, exAdapterH), (.CIVITAI, exAdapterC), (.LOCAL, exAdapterL)]

/-- Witness for C8 on the spec's three example ids plus one un-inferable id
(resolved by the try-all loop: HuggingFace answers `None`, Civitai wins). -/
theorem c8_id_inference_witness :
    (getModelInfo exGw3 "local:checkpoints/foo.safetensors" none
        = exAdapterL.getInfo "local:checkpoints/foo.safetensors"
      ∧ downloadModel exGw3 "local:checkpoints/foo.safetensors" none = .ok "pl")
    ∧ (getModelInfo exGw3 "org/name" none = exAdapterH.getInfo "org/name"
      ∧ downloadModel exGw3 "org/name" none = .ok "ph")
    ∧ (getModelInfo exGw3 "12345" none = exAdapterC.getInfo "12345"
      ∧ downloadModel exGw3 "12345" none = .ok "pc")
    ∧ getModelInfo exGw3 "weird-id" none = .ok (tryAllSources exGw3 "weird-id")
    ∧ (∃ l₁ t a l₂, exGw3 = l₁ ++ (t, a) :: l₂
        ∧ a.getInfo "weird-id" = .ok (some exModelC)
        ∧ ∀ q ∈ l₁, ∀ j, q.2.getInfo "weird-id" ≠ .ok (some j)) :=
  ⟨⟨((c8_id_inference exGw3 "local:checkpoints/foo.safetensors").1 exAdapterL (by rfl) (by rfl)).1,
    ((c8_id_inference exGw3 "local:checkpoints/foo.safetensors").1 exAdapterL (by rfl) (by rfl)).2 "pl" (by rfl)⟩,
   ⟨((c8_id_inference exGw3 "org/name").2.1 exAdapterH (by rfl) (by rfl) (by rfl)).1,
    ((c8_id_inference exGw3 "org/name").2.1 exAdapterH (by rfl) (by rfl) (by rfl)).2 "ph" (by rfl)⟩,
   ⟨((c8_id_inference exGw3 "12345").2.2.1 exAdapterC (by rfl) (by rfl) (by rfl) (by rfl)).1,
    ((c8_id_inference exGw3 "12345").2.2.1 exAdapterC (by rfl) (by rfl) (by rfl) (by rfl)).2 "pc" (by rfl)⟩,
   ((c8_id_inference exGw3 "weird-id").2.2.2 (by rfl) (by rfl) (by rfl)).1,
   ((c8_id_inference exGw3 "weird-id").2.2.2 (by rfl) (by rfl) (by rfl)).2.2 exModelC (by rfl)⟩

/-- The spec-side "missing values are lowest" descending comparison on
optional download counts (`None` below every integer), used to state the C6
counterexample. -/
def optLowestGE : Option Int → Option Int → Bool
  | _, none => true
  | none, some _ => false
  | some x, some y => decide (y ≤ x)

/-- Python's stable descending sort preserves, for every key value, the
relative input order of the elements with that key (stability, phrased as a
filter equation). -/
theorem stable_filter_mergeSort (l : List ModelInfo) (k : ModelInfo → Int) (d : Int) :
    (l.mergeSort (fun a b => decide (k b ≤ k a))).filter (fun x => decide (k x = d))
      = l.filter (fun x => decide (k x = d)) := by
  set le := fun a b : ModelInfo => decide (k b ≤ k a) with hle
  set p := fun x : ModelInfo => decide (k x = d) with hp
  have htrans : ∀ a b c, le a b → le b c → le a c := by
    intro a b c hab hbc
    simp only [hle, decide_eq_true_eq] at *
    omega
  have htotal : ∀ a b, le a b || le b a := by
    intro a b
    simp only [hle]
    rcases Int.le_total (k b) (k a) with h | h <;> simp [h]
  have hpair : (l.filter p).Pairwise (fun a b => le a b) := by
    apply List.pairwise_of_forall_mem_list
    intro a ha b hb
    have hka := List.of_mem_filter ha
    have hkb := List.of_mem_filter hb
    simp only [hp, decide_eq_true_eq] at hka hkb
    simp only [hle, hka, hkb, decide_eq_true_eq]
    omega
  have hsub : List.Sublist (l.filter p) (l.mergeSort le) :=
    List.sublist_mergeSort htrans htotal hpair (List.filter_sublist l)
  have hperm : List.Perm ((l.mergeSort le).filter p) (l.filter p) :=
    (List.mergeSort_perm l le).filter p
  have hfself : (l.filter p).filter p = l.filter p :=
    List.filter_eq_self.mpr (fun a ha => List.of_mem_filter ha)
  have hsub2 : List.Sublist (l.filter p) ((l.mergeSort le).filter p) := by
    have h := hsub.filter p
    rwa [hfself] at h
  exact (hsub2.eq_of_length hperm.length_eq.symm).symm

/-- Transitivity of the descending downloads comparator. -/
theorem descKey_trans (k : ModelInfo → Int) :
    ∀ a b c : ModelInfo, decide (k b ≤ k a) → decide (k c ≤ k b) → decide (k c ≤ k a) := by
  intro a b c hab hbc
  simp only [decide_eq_true_eq] at *
  omega

/-- Totality of the descending downloads comparator. -/
theorem descKey_total (k : ModelInfo → Int) :
    ∀ a b : ModelInfo, decide (k b ≤ k a) || decide (k a ≤ k b) := by
  intro a b
  rcases Int.le_total (k b) (k a) with h | h <;> simp [h]

/-- C6 (amended): with `sort_by="downloads"`, `search_unified` returns the
page-`page` slice (entries `[(page-1)*page_size, page*page_size)`) of a merged
sequence `M` that is a permutation of the concatenated per-source model lists,
sorted descending by the key `downloads or 0` (a missing value counts as 0),
with ties broken stably by input order (for every key value, filtering `M`
and filtering the input give the same list). -/
theorem c6_unified_sort (gw : Gateway) (page pageSize : Nat)
    (sources : Option (List ModelSourceType)) (_hpage : 1 ≤ page) :
    ∃ M : List ModelInfo,
      List.Perm M (((searchAll gw 1 (pageSize * gw.length) sources).map
          (fun pr => pr.2.models)).flatten)
      ∧ M.Pairwise (fun a b => downloadsKey b ≤ downloadsKey a)
      ∧ (∀ d : Int, M.filter (fun m => decide (downloadsKey m = d))
          = (((searchAll gw 1 (pageSize * gw.length) sources).map
              (fun pr => pr.2.models)).flatten).filter (fun m => decide (downloadsKey m = d)))
      ∧ (searchUnified gw page pageSize (some "downloads") sources).models
          = (M.drop ((page - 1) * pageSize)).take pageSize := by
  refine ⟨(((searchAll gw 1 (pageSize * gw.length) sources).map
      (fun pr => pr.2.models)).flatten).mergeSort
        (fun a b => decide (downloadsKey b ≤ downloadsKey a)),
    List.mergeSort_perm _ _, ?_, ?_, ?_⟩
  · exact (List.sorted_mergeSort (descKey_trans downloadsKey) (descKey_total downloadsKey) _).imp
      (fun h => of_decide_eq_true h)
  · intro d
    exact stable_filter_mergeSort _ downloadsKey d
  · rfl

/-- A model with no downloads count. -/
def exModelNone : ModelInfo := { id := "n", name := "n", source := .HUGGINGFACE }

/-- A model with a negative downloads count. -/
def exModelNeg : ModelInfo :=
  { id := "g", name := "g", source := .HUGGINGFACE, downloads := some (-1) }

/-- A single-source gateway returning the two models above, in that order. -/
def exGwC6 : Gateway :=
  [(.HUGGINGFACE,
    { isAvailable := true,
      search := fun _ _ => .ok { models := [exModelNone, exModelNeg], total := 2,
                                 source := .HUGGINGFACE, page := 1, pageSize := 30 },
      getInfo := fun _ => .ok none, download := fun _ => .ok "p" })]

/-- C6 counterexample: the comparator maps a missing downloads value to `0`,
not to the bottom of the order, so a model with `downloads = -1` sorts *below*
a model with no downloads value: the returned sequence is not descending under
the claimed "missing is lowest" order. -/
theorem c6_missing_lowest_counterexample :
    (searchUnified exGwC6 1 30 (some "downloads") none).models = [exModelNone, exModelNeg]
    ∧ ¬ ([exModelNone, exModelNeg].Pairwise
          (fun a b => optLowestGE a.downloads b.downloads = true)) := by
  constructor
  · have hs : pySortDescInt downloadsKey [exModelNone, exModelNeg]
        = [exModelNone, exModelNeg] := by
      unfold pySortDescInt
      apply List.mergeSort_of_sorted
      refine List.Pairwise.cons ?_ (List.pairwise_singleton _ _)
      intro b hb
      rw [List.mem_singleton] at hb
      subst hb
      decide
    have h1 : (searchUnified exGwC6 1 30 (some "downloads") none).models
        = ((pySortDescInt downloadsKey [exModelNone, exModelNeg]).drop 0).take 30 := rfl
    rw [h1, hs]
    rfl
  · intro h
    have h2 := (List.pairwise_cons.mp h).1 exModelNeg (List.mem_cons_self _ _)
    simp [exModelNone, exModelNeg, optLowestGE] at h2

/-- Witness for C6 (amended) on the concrete single-source gateway. -/
theorem c6_unified_sort_witness :
    ∃ M : List ModelInfo,
      List.Perm M (((searchAll exGwC6 1 (30 * exGwC6.length) none).map
          (fun pr => pr.2.models)).flatten)
      ∧ M.Pairwise (fun a b => downloadsKey b ≤ downloadsKey a)
      ∧ (∀ d : Int, M.filter (fun m => decide (downloadsKey m = d))
          = (((searchAll exGwC6 1 (30 * exGwC6.length) none).map
              (fun pr => pr.2.models)).flatten).filter (fun m => decide (downloadsKey m = d)))
      ∧ (searchUnified exGwC6 1 30 (some "downloads") none).models
          = (M.drop ((1 - 1) * 30)).take 30 :=
  c6_unified_sort exGwC6 1 30 none (by decide)

/-- `round2` is monotone. -/
theorem round2_mono {x y : ℚ} (h : x ≤ y) : round2 x ≤ round2 y := by
  unfold round2
  have hf : (⌊x * 100 + 1 / 2⌋ : ℤ) ≤ ⌊y * 100 + 1 / 2⌋ :=
    Int.floor_le_floor (by linarith)
  have hq : ((⌊x * 100 + 1 / 2⌋ : ℤ) : ℚ) ≤ ((⌊y * 100 + 1 / 2⌋ : ℤ) : ℚ) := by
    exact_mod_cast hf
  linarith

/-- The percentage formula is monotone in the progress counter. -/
theorem pctOf_mono (fs : Nat) {p q : Nat} (h : p ≤ q) : pctOf fs p ≤ pctOf fs q := by
  unfold pctOf
  by_cases hfs : 0 < fs
  · rw [if_pos hfs, if_pos hfs]
    have hp : (p : ℚ) ≤ (q : ℚ) := by exact_mod_cast h
    have hfsq : (0 : ℚ) < (fs : ℚ) := by exact_mod_cast hfs
    exact mul_le_mul_of_nonneg_right ((div_le_div_iff_of_pos_right hfsq).mpr hp) (by norm_num)
  · rw [if_neg hfs, if_neg hfs]

/-- The registry entry's percentage is at most the (rounded) percentage of the
object's current progress — the invariant `update` maintains. -/
def PctCoherent (s : DPCState) : Prop :=
  ∀ r, s.record = some r → r.percentage ≤ round2 (pctOf s.fileSize s.progress)

/-- Fields of the registry entry after an `update`. -/
theorem update_record_fields (s : DPCState) (size : Nat) (elapsed : ℚ)
    (r : ProgressRecord) (hr : s.record = some r) :
    ∃ r', (s.update size elapsed).record = some r'
      ∧ r'.progress = s.progress + size
      ∧ r'.percentage = round2 (pctOf s.fileSize (s.progress + size))
      ∧ r'.status = r.status := by
  unfold DPCState.update
  rw [hr]
  exact ⟨_, rfl, rfl, rfl, rfl⟩

/-- C4 (amended): starting from a fresh callback, the recorded percentage
never decreases across `update()` calls; but `end()` does not freeze the
record: a later `update()` still rewrites it, accumulating `size` onto the
progress counter regardless of any terminal status (the claimed frozen
behavior fails; see the counterexample). -/
theorem c4_percentage_monotone (fs size : Nat) (elapsed : ℚ) (s : DPCState) :
    PctCoherent (initDPC fs)
    ∧ (PctCoherent s →
        PctCoherent (s.update size elapsed)
        ∧ ∀ r r', s.record = some r → (s.update size elapsed).record = some r' →
            r.percentage ≤ r'.percentage)
    ∧ (s.update size elapsed).progress = s.progress + size
    ∧ (∀ r, s.record = some r → ∃ r', (s.update size elapsed).record = some r' ∧
        r'.progress = s.progress + size) := by
  refine ⟨?_, ?_, rfl, ?_⟩
  · intro r hr
    simp only [initDPC, Option.some.injEq] at hr
    subst hr
    have hpz : pctOf fs 0 = 0 := by
      unfold pctOf
      split <;> simp
    show (0 : ℚ) ≤ round2 (pctOf fs 0)
    rw [hpz]
    unfold round2
    norm_num
  · intro hcoh
    constructor
    · intro r' hr'
      cases hrec : s.record with
      | none =>
          have hnone : (s.update size elapsed).record = none := by
            unfold DPCState.update
            rw [hrec]
            rfl
          rw [hnone] at hr'
          cases hr'
      | some r =>
          obtain ⟨r'', heq, hprog, hpct, hst⟩ := update_record_fields s size elapsed r hrec
          rw [heq] at hr'
          injection hr' with h
          subst h
          rw [hpct]
          exact le_of_eq rfl
    · intro r r' hr hr'
      obtain ⟨r'', heq, hprog, hpct, hst⟩ := update_record_fields s size elapsed r hr
      rw [heq] at hr'
      injection hr' with h
      subst h
      rw [hpct]
      exact (hcoh r hr).trans (round2_mono (pctOf_mono s.fileSize (Nat.le_add_right _ _)))
  · intro r hr
    obtain ⟨r', heq, hprog, _, _⟩ := update_record_fields s size elapsed r hr
    exact ⟨r', heq, hprog⟩

/-- Witness for C4 (amended) at a concrete fresh callback. -/
theorem c4_percentage_monotone_witness :
    PctCoherent ((initDPC 10).update 5 1)
    ∧ ((initDPC 10).update 5 1).progress = 0 + 5 :=
  ⟨((c4_percentage_monotone 10 5 1 (initDPC 10)).2.1
      (c4_percentage_monotone 10 5 1 (initDPC 10)).1).1,
   (c4_percentage_monotone 10 5 1 (initDPC 10)).2.2.1⟩

/-- C4 counterexample: download of 10 bytes; one `update(10)` then a
successful `end()` (the assertion passes, second component `none`); a further
`update(5)` is *not* a no-op: the recorded progress moves from the frozen-in
10 to 15. -/
theorem c4_frozen_counterexample :
    (((initDPC 10).update 10 1).endOp true none 2).2 = none
    ∧ (((initDPC 10).update 10 1).endOp true none 2).1.record.map ProgressRecord.progress
        = some 10
    ∧ ((((initDPC 10).update 10 1).endOp true none 2).1.update 5 3).record.map ProgressRecord.progress
        = some 15
    ∧ ((((initDPC 10).update 10 1).endOp true none 2).1.update 5 3).record.map ProgressRecord.status
        = some "completed" := by
  refine ⟨rfl, rfl, rfl, rfl⟩

/-- C10: calling `end(success=True)` while the accumulated progress differs
from `file_size` raises the `AssertionError` (second component), and the
shared registry entry is left exactly as it was — in particular its status
stays `"downloading"` — because the terminal write never executes.  (The
callback object's own `status` attribute was already flipped to
`"completed"` before the assertion, as in the source.) -/
theorem c10_end_assertion (s : DPCState) (t : ℚ) (hneq : s.progress ≠ s.fileSize) :
    (s.endOp true none t).2 = some "Download incomplete"
    ∧ (s.endOp true none t).1.record = s.record
    ∧ (s.record.map ProgressRecord.status = some "downloading" →
        (s.endOp true none t).1.record.map ProgressRecord.status = some "downloading")
    ∧ (s.endOp true none t).1.status = "completed" := by
  unfold DPCState.endOp
  simp only [if_true]
  rw [if_neg hneq]
  exact ⟨rfl, rfl, fun h => h, rfl⟩

/-- Witness for C10: 5 of 10 bytes downloaded, then `end(success=True)`. -/
theorem c10_end_assertion_witness :
    ((((initDPC 10).update 5 1).endOp true none 2).2 = some "Download incomplete")
    ∧ ((((initDPC 10).update 5 1).endOp true none 2).1.record = ((initDPC 10).update 5 1).record)
    ∧ ((((initDPC 10).update 5 1).endOp true none 2).1.record.map ProgressRecord.status
        = some "downloading")
    ∧ ((((initDPC 10).update 5 1).endOp true none 2).1.status = "completed") :=
  ⟨(c10_end_assertion ((initDPC 10).update 5 1) 2 (by decide)).1,
   (c10_end_assertion ((initDPC 10).update 5 1) 2 (by decide)).2.1,
   (c10_end_assertion ((initDPC 10).update 5 1) 2 (by decide)).2.2.1 rfl,
   (c10_end_assertion ((initDPC 10).update 5 1) 2 (by decide)).2.2.2⟩
